import Mathlib

set_option maxRecDepth 100000

/-!
Verification development for the MindMate mental-wellbeing companion
service.  The conversation/crisis-routing core (`chat_with_ai` in
`app.py`) and the sqlite persistence helpers (`database.py`) are embedded
as pure Lean functions over an explicit store state.

Modelling conventions:
* Python strings are `List Char`; `str` converts a Lean string literal.
* `str.lower()` is modelled for the ASCII range (`lowerChar`), which is
  exact on every character the crisis/mood keywords can match.
* `str.strip()` is modelled with the six ASCII whitespace characters.
* The remote OpenAI completion call is an oracle argument
  (`RemoteOutcome`): it either returns `content` (`Option` text, since the
  API may return `None`) or raises.
* A sqlite write either succeeds or raises; the `storeOk : Bool` argument
  selects the outcome of the insert performed by the handler.
* sqlite `AUTOINCREMENT` ids are a per-table `next_id` counter; a row's
  `timestamp` column is the `now : Nat` argument threaded into each write.
-/

namespace MindMate

/-- Python strings, modelled as lists of characters. -/
abbrev Str := List Char

/-- Convert a Lean string literal to the model type. -/
def str (s : String) : Str := s.toList

/-- The six ASCII whitespace characters stripped by Python `str.strip()`. -/
def isWs (c : Char) : Bool :=
  decide (c.toNat = 32 ∨ c.toNat = 9 ∨ c.toNat = 10 ∨ c.toNat = 13 ∨
          c.toNat = 11 ∨ c.toNat = 12)

/-- ASCII case folding of one character, as done by Python `str.lower()`
on the ASCII range. -/
def lowerChar (c : Char) : Char :=
  if 65 ≤ c.toNat ∧ c.toNat ≤ 90 then Char.ofNat (c.toNat + 32) else c

/-- Python `str.lower()`. -/
def lowerStr (s : Str) : Str := s.map lowerChar

/-- Python `str.strip()`: drop leading and trailing whitespace. -/
def strip (s : Str) : Str :=
  ((s.dropWhile isWs).reverse.dropWhile isWs).reverse

/-- Python `needle in hay` on strings: substring containment. -/
def containsStr (needle hay : Str) : Bool := decide (needle <:+: hay)

/-- The crisis keyword list of `chat_with_ai` (app.py line 82). -/
def crisis_keywords : List Str :=
  [str ("suicide"), str ("kill myself"), str ("end it all"),
   str ("hurt myself"), str ("self-harm"), str ("crisis")]

/-- The Crisis Classifier: `any(keyword in user_message.lower() for
keyword in crisis_keywords)` (app.py line 83). -/
def classify (text : Str) : Bool :=
  crisis_keywords.any (fun keyword => containsStr keyword (lowerStr text))

/-- The fixed crisis reply of `chat_with_ai` (app.py lines 86-93). -/
def crisis_response : Str :=
  str ("I\x27m really concerned about you and want you to know that you\x27re not alone. Please reach out for immediate help:\n\n🆘 **Emergency Resources:**\n- **Crisis Text Line**: Text HOME to 741741\n- **National Suicide Prevention Lifeline**: Call or text 988\n- **Emergency**: Call 911\n\nYou matter, and there are people who want to help you through this difficult time. Would you like to talk about what\x27s making you feel this way?")

/-- Canned fallback reply for "stressed" (app.py line 125). -/
def stressed_reply : Str :=
  str ("I understand you\x27re feeling stressed. Try taking three deep breaths with me: inhale for 4 counts, hold for 7, exhale for 8. Stress is temporary, and you have the strength to work through this. What\x27s one small thing you could do right now to feel a bit better?")

/-- Canned fallback reply for "anxious" (app.py line 126). -/
def anxious_reply : Str :=
  str ("Anxiety can feel overwhelming, but you\x27re not alone in this. Ground yourself by naming 5 things you can see, 4 you can touch, 3 you can hear, 2 you can smell, and 1 you can taste. Would you like to try some breathing exercises or talk about what\x27s making you anxious?")

/-- Canned fallback reply for "sad" (app.py line 127). -/
def sad_reply : Str :=
  str ("I\x27m sorry you\x27re feeling sad. It\x27s okay to feel this way - your emotions are valid. Sometimes sadness helps us process important experiences. Would journaling help? Writing down your thoughts can sometimes bring clarity and relief.")

/-- Canned fallback reply for "happy" (app.py line 128). -/
def happy_reply : Str :=
  str ("I\x27m so glad to hear you\x27re feeling good! It\x27s wonderful when we can appreciate positive moments. What\x27s bringing you joy today? Celebrating these feelings can help us remember them during tougher times.")

/-- Canned fallback reply for "tired" (app.py line 129). -/
def tired_reply : Str :=
  str ("Being tired can affect everything - your mood, thoughts, and energy. Are you getting enough sleep? Sometimes tiredness is our body\x27s way of asking for rest or self-care. What would help you feel more energized?")

/-- The ordered keyword-to-reply table of the Fallback Responder
(app.py lines 124-130); Python dicts preserve insertion order. -/
def fallback_responses : List (Str × Str) :=
  [(str ("stressed"), stressed_reply),
   (str ("anxious"), anxious_reply),
   (str ("sad"), sad_reply),
   (str ("happy"), happy_reply),
   (str ("tired"), tired_reply)]

/-- Generic supportive reply when no mood keyword matches (app.py line 141). -/
def generic_reply : Str :=
  str ("Thank you for sharing with me. I\x27m here to listen and support you. Sometimes it helps to talk through what we\x27re experiencing. Would you like to tell me more about how you\x27re feeling today?")

/-- Substitute used when the remote completion returns empty text
(app.py line 120). -/
def substitute_reply : Str :=
  str ("I\x27m here to listen. Please tell me more.")

/-- The Fallback Responder: first-match-wins scan of the ordered keyword
table over the lowercased message (app.py lines 132-141). -/
def fallback (text : Str) : Str :=
  match fallback_responses.find? (fun p => containsStr p.1 (lowerStr text)) with
  | some p => p.2
  | none => generic_reply

/-- A row of the `moods` table (database.py lines 16-26). -/
structure MoodRow where
  id : Nat
  mood_type : Str
  mood_emoji : Str
  intensity : Int
  notes : Str
  timestamp : Nat
deriving DecidableEq

/-- A row of the `journal_entries` table (database.py lines 29-39). -/
structure JournalRow where
  id : Nat
  title : Str
  content : Str
  mood_at_time : Str
  tags : Str
  timestamp : Nat
deriving DecidableEq

/-- A row of the `chat_conversations` table (database.py lines 42-51);
note the table has no crisis column. -/
structure ChatRow where
  id : Nat
  user_message : Str
  ai_response : Str
  conversation_id : Str
  timestamp : Nat
deriving DecidableEq

/-- A row of the `breathing_sessions` table (database.py lines 54-63). -/
structure BreathingRow where
  id : Nat
  session_duration : Int
  cycles_completed : Int
  session_type : Str
  timestamp : Nat
deriving DecidableEq

/-- The sqlite store: the five tables of `init_database`, with one
`AUTOINCREMENT` counter per append-only table.  `user_settings` rows are
(key, value) pairs; the UNIQUE constraint on `setting_key` is maintained
by `update_user_setting`. -/
structure Store where
  moods : List MoodRow
  journal_entries : List JournalRow
  chat_conversations : List ChatRow
  breathing_sessions : List BreathingRow
  user_settings : List (Str × Str)
  moods_next_id : Nat
  journal_next_id : Nat
  chat_next_id : Nat
  breathing_next_id : Nat
deriving DecidableEq

/-- The store created by `init_database` on a fresh file: five empty
tables. -/
def Store.empty : Store :=
  ⟨[], [], [], [], [], 1, 1, 1, 1⟩

/-- `log_mood` (database.py lines 79-93): insert one row, return
`lastrowid`. -/
def log_mood (mood_type mood_emoji : Str) (intensity : Int) (notes : Str)
    (now : Nat) (s : Store) : Nat × Store :=
  (s.moods_next_id,
   { s with
     moods := s.moods ++
       [⟨s.moods_next_id, mood_type, mood_emoji, intensity, notes, now⟩]
     moods_next_id := s.moods_next_id + 1 })

/-- `save_journal_entry` (database.py lines 95-109). -/
def save_journal_entry (content title mood_at_time tags : Str)
    (now : Nat) (s : Store) : Nat × Store :=
  (s.journal_next_id,
   { s with
     journal_entries := s.journal_entries ++
       [⟨s.journal_next_id, title, content, mood_at_time, tags, now⟩]
     journal_next_id := s.journal_next_id + 1 })

/-- `log_chat_conversation` (database.py lines 111-128): a falsy
(empty) `conversation_id` is replaced by a freshly generated
`conv_<timestamp>` identifier; `genTs` stands for
`datetime.now().strftime(...)`. -/
def log_chat_conversation (user_message ai_response conversation_id : Str)
    (genTs : Str) (now : Nat) (s : Store) : Nat × Store :=
  let cid := if conversation_id = [] then str ("conv_") ++ genTs
             else conversation_id
  (s.chat_next_id,
   { s with
     chat_conversations := s.chat_conversations ++
       [⟨s.chat_next_id, user_message, ai_response, cid, now⟩]
     chat_next_id := s.chat_next_id + 1 })

/-- `log_breathing_session` (database.py lines 130-144). -/
def log_breathing_session (duration cycles_completed : Int)
    (session_type : Str) (now : Nat) (s : Store) : Nat × Store :=
  (s.breathing_next_id,
   { s with
     breathing_sessions := s.breathing_sessions ++
       [⟨s.breathing_next_id, duration, cycles_completed, session_type, now⟩]
     breathing_next_id := s.breathing_next_id + 1 })

/-- `update_user_setting` (database.py lines 224-235): sqlite
`INSERT OR REPLACE` on the UNIQUE `setting_key` deletes any old row for
the key and appends the fresh one. -/
def update_user_setting (key value : Str) (s : Store) : Store :=
  { s with
    user_settings :=
      s.user_settings.filter (fun p => decide (p.1 ≠ key)) ++ [(key, value)] }

/-- `get_user_setting` (database.py lines 237-246): `fetchone` on the
key-filtered select, else the supplied default. -/
def get_user_setting (key default_value : Str) (s : Store) : Str :=
  match s.user_settings.find? (fun p => decide (p.1 = key)) with
  | some p => p.2
  | none => default_value

/-- The mood rows of the last 7 days:
`timestamp >= datetime(now, -7 days)` (database.py lines 199-203). -/
def recent7 (now : Nat) (s : Store) : List MoodRow :=
  s.moods.filter (fun r => decide (now ≤ r.timestamp + 7 * 86400))

/-- Sum of the intensities of a list of mood rows (numerator of sqlite
`AVG(intensity)`). -/
def sumIntensity (rows : List MoodRow) : ℤ :=
  (rows.map (fun r => r.intensity)).sum

/-- `round(num / den, 1)` with ties to even (Python `round`), returned in
exact tenths: the result is ten times the rounded decimal.  Requires
`0 < den`. -/
def roundTenthsHalfEven (num den : ℤ) : ℤ :=
  let tn := 10 * num
  let f := Int.fdiv tn den
  let r := tn - f * den
  if 2 * r < den then f
  else if den < 2 * r then f + 1
  else if f % 2 = 0 then f else f + 1

/-- Result record of `get_mood_statistics` (database.py lines 217-222).
`avg_intensity_tenths` is the one-decimal average multiplied by ten, so
that the decimal value is represented exactly by an integer. -/
structure Stats where
  mood_counts : List (Str × Nat)
  avg_intensity_tenths : ℤ
  total_entries : Nat
  total_breathing_sessions : Nat
deriving DecidableEq

/-- Distinct mood types in order of first occurrence (sqlite `GROUP BY`
visit order). -/
def distinctTypes (rows : List MoodRow) : List Str :=
  rows.foldl
    (fun acc r => if acc.contains r.mood_type then acc else acc ++ [r.mood_type])
    []

/-- Insert one (mood, count) pair into a list sorted by descending count. -/
def insertByCountDesc (p : Str × Nat) :
    List (Str × Nat) → List (Str × Nat)
  | [] => [p]
  | q :: rest =>
    if q.2 < p.2 then p :: q :: rest else q :: insertByCountDesc p rest

/-- Sort (mood, count) pairs by descending count (sqlite
`ORDER BY count DESC`). -/
def sortByCountDesc : List (Str × Nat) → List (Str × Nat)
  | [] => []
  | p :: rest => insertByCountDesc p (sortByCountDesc rest)

/-- `get_mood_statistics` (database.py lines 182-222).  sqlite `AVG`
returns NULL on an empty selection; the Python `fetchone()[0] or 5`
replaces both NULL and a 0.0 average by the default 5, and the result is
passed through `round(_, 1)` (default branch: `round(5, 1) = 5.0`, fifty
tenths). -/
def get_mood_statistics (now : Nat) (s : Store) : Stats :=
  let recent30 := s.moods.filter (fun r => decide (now ≤ r.timestamp + 30 * 86400))
  { mood_counts :=
      sortByCountDesc ((distinctTypes recent30).map
        (fun t => (t, (recent30.filter (fun r => decide (r.mood_type = t))).length)))
    avg_intensity_tenths :=
      if recent7 now s = [] then 50
      else if sumIntensity (recent7 now s) = 0 then 50
      else roundTenthsHalfEven (sumIntensity (recent7 now s))
             ((recent7 now s).length : ℤ)
    total_entries := s.journal_entries.length
    total_breathing_sessions := s.breathing_sessions.length }

/-- Outcome of the one remote completion attempt (app.py lines 105-114):
either `choices[0].message.content` is produced (possibly `None`), or the
call raises and the handler falls back. -/
inductive RemoteOutcome
  | ok (content : Option Str)
  | err
deriving DecidableEq

/-- The JSON payload of a successful `/api/chat` response.  The
`is_crisis` key is present (value `True`) only on the crisis path; the
success/fallback path returns only `reply`, `conversation_id` and a
timestamp (app.py lines 98-102 and 146-150). -/
structure ChatOk where
  reply : Str
  conversation_id : Str
  is_crisis : Option Bool
deriving DecidableEq

/-- Result of one `/api/chat` request: the 400 empty-message rejection,
the 500 `Chat error` produced by the outer exception handler, or a 200
payload. -/
inductive ChatResult
  | invalidInput
  | chatError
  | ok (r : ChatOk)
deriving DecidableEq

/-- The conversation id carried by a successful chat result. -/
def ChatResult.convId : ChatResult → Option Str
  | .ok r => some r.conversation_id
  | _ => none

/-- `chat_with_ai` (app.py lines 67-153), the Conversation Orchestrator:
trim and validate the message, default the conversation id, route crisis
messages to the fixed reply, otherwise use the remote completion (with
the Fallback Responder on remote failure), then log the turn and return.
`freshUuid` stands for `str(uuid.uuid4())`; `storeOk` is the outcome of
the `log_chat_conversation` insert — when it raises, the outer `except`
turns the request into a 500 `Chat error` response. -/
def chat_with_ai (message : Str) (conversation_id_param : Option Str)
    (remote : RemoteOutcome) (storeOk : Bool) (freshUuid genTs : Str)
    (now : Nat) (s : Store) : ChatResult × Store :=
  let user_message := strip message
  if user_message = [] then (.invalidInput, s)
  else
    let conversation_id := conversation_id_param.getD freshUuid
    if classify user_message then
      if storeOk then
        (.ok ⟨crisis_response, conversation_id, some true⟩,
         (log_chat_conversation user_message crisis_response
            conversation_id genTs now s).2)
      else (.chatError, s)
    else
      let ai_response :=
        match remote with
        | .ok content =>
          match content with
          | some t => if t = [] then substitute_reply else strip t
          | none => substitute_reply
        | .err => fallback user_message
      if storeOk then
        (.ok ⟨ai_response, conversation_id, none⟩,
         (log_chat_conversation user_message ai_response
            conversation_id genTs now s).2)
      else (.chatError, s)

/-! ### Helper lemmas: whitespace, case folding and substring survival
under `strip` -/

/-- Case folding fixes whitespace characters. -/
lemma lowerChar_ws (c : Char) (h : isWs c = true) : lowerChar c = c := by
  have hp := of_decide_eq_true h
  unfold lowerChar
  rw [if_neg]
  omega

/-- Case folding is the identity on all-whitespace strings. -/
lemma lowerStr_ws_id : ∀ (w : Str), (∀ c ∈ w, isWs c = true) → lowerStr w = w
  | [], _ => rfl
  | c :: w, h => by
    have h1 := lowerChar_ws c (h c (List.mem_cons_self c w))
    have h2 := lowerStr_ws_id w (fun d hd => h d (List.mem_cons_of_mem c hd))
    simp only [lowerStr, List.map_cons] at h2 ⊢
    rw [h1, h2]

/-- `lowerStr` distributes over append. -/
lemma lowerStr_append (a b : Str) : lowerStr (a ++ b) = lowerStr a ++ lowerStr b :=
  List.map_append lowerChar a b

/-- `dropWhile` leaves the stripped core followed by the trailing
whitespace. -/
lemma dropWhile_eq_strip_append (s : Str) :
    s.dropWhile isWs = strip s ++ ((s.dropWhile isWs).reverse.takeWhile isWs).reverse := by
  unfold strip
  rw [← List.reverse_append, List.takeWhile_append_dropWhile, List.reverse_reverse]

/-- Every string is whitespace, then its `strip`, then whitespace. -/
lemma strip_decomp (s : Str) :
    ∃ w1 w2, s = w1 ++ strip s ++ w2 ∧
      (∀ c ∈ w1, isWs c = true) ∧ (∀ c ∈ w2, isWs c = true) := by
  refine ⟨s.takeWhile isWs, ((s.dropWhile isWs).reverse.takeWhile isWs).reverse,
    ?_, ?_, ?_⟩
  · rw [List.append_assoc, ← dropWhile_eq_strip_append,
      List.takeWhile_append_dropWhile]
  · exact fun c hc => List.mem_takeWhile_imp hc
  · intro c hc
    rw [List.mem_reverse] at hc
    exact List.mem_takeWhile_imp hc

/-- The stripped string is a substring of the original. -/
lemma strip_isInfix (s : Str) : strip s <:+: s := by
  obtain ⟨w1, w2, hm, _, _⟩ := strip_decomp s
  conv_rhs => rw [hm]
  exact List.infix_append _ _ _

/-- A substring whose first character is not whitespace survives the
removal of an all-whitespace prefix. -/
lemma infix_of_ws_prefix (k : Str) (hh : ∀ a, k.head? = some a → isWs a = false) :
    ∀ (w l : Str), (∀ c ∈ w, isWs c = true) → k <:+: w ++ l → k <:+: l := by
  intro w
  induction w with
  | nil => intro l _ h; simpa using h
  | cons c w ih =>
    intro l hw h
    rw [List.cons_append] at h
    rcases List.infix_cons_iff.mp h with hp | hi
    · cases k with
      | nil => exact List.nil_infix
      | cons a as =>
        have hac : a = c := (List.cons_prefix_cons.mp hp).1
        have h1 : isWs a = false := hh a rfl
        have h2 : isWs c = true := hw c (List.mem_cons_self c w)
        rw [hac] at h1
        rw [h1] at h2
        exact absurd h2 (by simp)
    · exact ih l (fun d hd => hw d (List.mem_cons_of_mem c hd)) hi

/-- A substring whose last character is not whitespace survives the
removal of an all-whitespace suffix. -/
lemma infix_of_ws_suffix (k : Str) (hl : ∀ b, k.getLast? = some b → isWs b = false)
    (l w : Str) (hw : ∀ c ∈ w, isWs c = true) (h : k <:+: l ++ w) : k <:+: l := by
  have h' : k.reverse <:+: w.reverse ++ l.reverse := by
    have hr := List.reverse_infix.mpr h
    rwa [List.reverse_append] at hr
  have hh' : ∀ a, k.reverse.head? = some a → isWs a = false := by
    intro a ha
    rw [List.head?_reverse] at ha
    exact hl a ha
  have h2 := infix_of_ws_prefix k.reverse hh' w.reverse l.reverse
    (fun c hc => hw c (List.mem_reverse.mp hc)) h'
  exact List.reverse_infix.mp h2

/-- A keyword has non-whitespace characters at both edges (and is
non-empty). -/
def noWsEdges (k : Str) : Bool :=
  match k.head?, k.getLast? with
  | some a, some b => !isWs a && !isWs b
  | _, _ => false

lemma noWsEdges_head (k : Str) (h : noWsEdges k = true) :
    ∀ a, k.head? = some a → isWs a = false := by
  intro a ha
  unfold noWsEdges at h
  rw [ha] at h
  cases hb : k.getLast? with
  | none => rw [hb] at h; simp at h
  | some b =>
    rw [hb] at h
    simp only [Bool.and_eq_true, Bool.not_eq_true'] at h
    exact h.1

lemma noWsEdges_getLast (k : Str) (h : noWsEdges k = true) :
    ∀ b, k.getLast? = some b → isWs b = false := by
  intro b hb
  unfold noWsEdges at h
  rw [hb] at h
  cases ha : k.head? with
  | none => rw [ha] at h; simp at h
  | some a =>
    rw [ha] at h
    simp only [Bool.and_eq_true, Bool.not_eq_true'] at h
    exact h.2

/-- A case-insensitive substring of a message is still a substring of the
lowercased *stripped* message, when its edges are not whitespace. -/
lemma infix_lowerStr_strip (k m : Str)
    (hh : ∀ a, k.head? = some a → isWs a = false)
    (hl : ∀ b, k.getLast? = some b → isWs b = false)
    (h : k <:+: lowerStr m) : k <:+: lowerStr (strip m) := by
  obtain ⟨w1, w2, hm, hw1, hw2⟩ := strip_decomp m
  have key : lowerStr m = w1 ++ (lowerStr (strip m) ++ w2) := by
    conv_lhs => rw [hm]
    rw [lowerStr_append, lowerStr_append, lowerStr_ws_id w1 hw1,
      lowerStr_ws_id w2 hw2, List.append_assoc]
  rw [key] at h
  have h2 := infix_of_ws_prefix k hh w1 (lowerStr (strip m) ++ w2) hw1 h
  exact infix_of_ws_suffix k hl (lowerStr (strip m)) w2 hw2 h2

/-! ### Helper lemmas: the classifier and the Fallback Responder -/

/-- `classify` is true exactly when some crisis keyword is contained in
the lowercased text. -/
lemma classify_eq_true_iff (t : Str) :
    classify t = true ↔ ∃ k ∈ crisis_keywords, k <:+: lowerStr t := by
  simp [classify, containsStr, List.any_eq_true]

/-- A crisis keyword contained (case-insensitively) in the raw message is
still detected after the handler strips the message. -/
lemma classify_strip_true (m k : Str) (hk : k ∈ crisis_keywords)
    (hc : k <:+: lowerStr m) : classify (strip m) = true := by
  have hedge : noWsEdges k = true := by
    have hall : ∀ x ∈ crisis_keywords, noWsEdges x = true := by decide
    exact hall k hk
  exact (classify_eq_true_iff (strip m)).mpr
    ⟨k, hk, infix_lowerStr_strip k m (noWsEdges_head k hedge)
      (noWsEdges_getLast k hedge) hc⟩

/-- A message classified non-crisis stays non-crisis after stripping. -/
lemma classify_strip_false (m : Str) (h : classify m = false) :
    classify (strip m) = false := by
  cases hcs : classify (strip m) with
  | false => rfl
  | true =>
    exfalso
    obtain ⟨k, hk, hc⟩ := (classify_eq_true_iff _).mp hcs
    have h1 : lowerStr (strip m) <:+: lowerStr m := (strip_isInfix m).map lowerChar
    have h2 := (classify_eq_true_iff m).mpr ⟨k, hk, hc.trans h1⟩
    rw [h] at h2
    exact absurd h2 (by simp)

/-- A message containing a crisis keyword is non-empty after stripping. -/
lemma strip_ne_nil_of_keyword (m k : Str) (hk : k ∈ crisis_keywords)
    (hc : k <:+: lowerStr m) : strip m ≠ [] := by
  intro he
  have h1 := classify_strip_true m k hk hc
  rw [he] at h1
  have h2 : classify ([] : Str) = false := by decide
  exact absurd h2 (by simp [h1])

/-- The Fallback Responder never returns the empty string. -/
lemma fallback_ne_nil (t : Str) : fallback t ≠ [] := by
  unfold fallback
  cases hf : fallback_responses.find? (fun p => containsStr p.1 (lowerStr t)) with
  | none => decide
  | some p =>
    have hp := List.mem_of_find?_eq_some hf
    show p.2 ≠ []
    simp only [fallback_responses, List.mem_cons, List.not_mem_nil, or_false] at hp
    rcases hp with rfl | rfl | rfl | rfl | rfl <;> decide

/-! ### Helper lemmas: autoincrement ids -/

/-- The ids of one table: strictly increasing in row order and below the
autoincrement counter. -/
def idsOk (ids : List Nat) (next : Nat) : Prop :=
  List.Pairwise (fun a b => a < b) ids ∧ ∀ i ∈ ids, i < next

/-- The whole-store id invariant. -/
def storeWF (s : Store) : Prop :=
  idsOk (s.moods.map MoodRow.id) s.moods_next_id ∧
  idsOk (s.journal_entries.map JournalRow.id) s.journal_next_id ∧
  idsOk (s.chat_conversations.map ChatRow.id) s.chat_next_id ∧
  idsOk (s.breathing_sessions.map BreathingRow.id) s.breathing_next_id

lemma storeWF_empty : storeWF Store.empty := by
  refine ⟨⟨?_, ?_⟩, ⟨?_, ?_⟩, ⟨?_, ?_⟩, ⟨?_, ?_⟩⟩ <;> simp [Store.empty]

/-- Appending the fresh id and bumping the counter preserves the id
invariant. -/
lemma idsOk_append (ids : List Nat) (n : Nat) (h : idsOk ids n) :
    idsOk (ids ++ [n]) (n + 1) := by
  obtain ⟨hp, hb⟩ := h
  constructor
  · rw [List.pairwise_append]
    refine ⟨hp, List.pairwise_singleton _ _, ?_⟩
    intro a ha b hb'
    rw [List.mem_singleton] at hb'
    subst hb'
    exact hb a ha
  · intro i hi
    rw [List.mem_append, List.mem_singleton] at hi
    rcases hi with hi | rfl
    · exact Nat.lt_succ_of_lt (hb i hi)
    · exact Nat.lt_succ_self _

lemma log_mood_wf (mt me : Str) (inten : Int) (nts : Str) (now : Nat)
    (s : Store) (hwf : storeWF s) :
    storeWF (log_mood mt me inten nts now s).2 ∧
    (log_mood mt me inten nts now s).2.moods.map MoodRow.id
      = s.moods.map MoodRow.id ++ [(log_mood mt me inten nts now s).1] ∧
    ∀ r ∈ s.moods, r.id < (log_mood mt me inten nts now s).1 := by
  obtain ⟨h1, h2, h3, h4⟩ := hwf
  refine ⟨⟨?_, h2, h3, h4⟩, ?_, ?_⟩
  · simp only [log_mood, List.map_append, List.map_cons, List.map_nil]
    exact idsOk_append _ _ h1
  · simp [log_mood]
  · intro r hr
    exact h1.2 r.id (List.mem_map_of_mem MoodRow.id hr)

lemma save_journal_entry_wf (ct tl mat tg : Str) (now : Nat)
    (s : Store) (hwf : storeWF s) :
    storeWF (save_journal_entry ct tl mat tg now s).2 ∧
    (save_journal_entry ct tl mat tg now s).2.journal_entries.map JournalRow.id
      = s.journal_entries.map JournalRow.id ++ [(save_journal_entry ct tl mat tg now s).1] ∧
    ∀ r ∈ s.journal_entries, r.id < (save_journal_entry ct tl mat tg now s).1 := by
  obtain ⟨h1, h2, h3, h4⟩ := hwf
  refine ⟨⟨h1, ?_, h3, h4⟩, ?_, ?_⟩
  · simp only [save_journal_entry, List.map_append, List.map_cons, List.map_nil]
    exact idsOk_append _ _ h2
  · simp [save_journal_entry]
  · intro r hr
    exact h2.2 r.id (List.mem_map_of_mem JournalRow.id hr)

lemma log_breathing_session_wf (d cyc : Int) (st : Str) (now : Nat)
    (s : Store) (hwf : storeWF s) :
    storeWF (log_breathing_session d cyc st now s).2 ∧
    (log_breathing_session d cyc st now s).2.breathing_sessions.map BreathingRow.id
      = s.breathing_sessions.map BreathingRow.id ++ [(log_breathing_session d cyc st now s).1] ∧
    ∀ r ∈ s.breathing_sessions, r.id < (log_breathing_session d cyc st now s).1 := by
  obtain ⟨h1, h2, h3, h4⟩ := hwf
  refine ⟨⟨h1, h2, h3, ?_⟩, ?_, ?_⟩
  · simp only [log_breathing_session, List.map_append, List.map_cons, List.map_nil]
    exact idsOk_append _ _ h4
  · simp [log_breathing_session]
  · intro r hr
    exact h4.2 r.id (List.mem_map_of_mem BreathingRow.id hr)

lemma log_chat_conversation_wf (um ar cid gents : Str) (now : Nat)
    (s : Store) (hwf : storeWF s) :
    storeWF (log_chat_conversation um ar cid gents now s).2 ∧
    (log_chat_conversation um ar cid gents now s).2.chat_conversations.map ChatRow.id
      = s.chat_conversations.map ChatRow.id ++ [s.chat_next_id] ∧
    ∀ r ∈ s.chat_conversations, r.id < s.chat_next_id := by
  obtain ⟨h1, h2, h3, h4⟩ := hwf
  refine ⟨⟨h1, h2, ?_, h4⟩, ?_, ?_⟩
  · simp only [log_chat_conversation, List.map_append, List.map_cons, List.map_nil]
    exact idsOk_append _ _ h3
  · simp [log_chat_conversation]
  · intro r hr
    exact h3.2 r.id (List.mem_map_of_mem ChatRow.id hr)

/-! ### Claim theorems -/

/-- Claim C1 (amended): for a non-crisis message that reaches the
persistence step, a failing `log_chat_conversation` write is NOT
swallowed — the outer exception handler turns the request into a 500
`Chat error` response and the already-computed reply is not returned; the
store is unchanged. -/
theorem chat_storage_failure_error (message : Str) (convP : Option Str)
    (remote : RemoteOutcome) (u ts : Str) (now : Nat) (s : Store)
    (hne : strip message ≠ []) (hnc : classify (strip message) = false) :
    chat_with_ai message convP remote false u ts now s = (.chatError, s) := by
  simp [chat_with_ai, hne, hnc]

/-- Claim C1 counterexample: at the concrete message "hello" with a
successful remote reply, a failing persistence write yields the
`Chat error` result, which is not the ok-result carrying the computed
reply — the claim that the reply is still returned is false. -/
theorem chat_storage_failure_cex :
    chat_with_ai (str ("hello")) none (RemoteOutcome.ok (some (str ("Hi there"))))
        false (str ("u")) (str ("t")) 0 Store.empty
      = (ChatResult.chatError, Store.empty) ∧
    (ChatResult.chatError : ChatResult)
      ≠ ChatResult.ok ⟨strip (str ("Hi there")), str ("u"), none⟩ := by
  decide

/-- Claim C1 witness: the amended theorem applied at a concrete input. -/
theorem chat_storage_failure_witness :
    chat_with_ai (str ("hello")) none (RemoteOutcome.ok (some (str ("Hi there"))))
        false (str ("u")) (str ("t")) 0 Store.empty
      = (ChatResult.chatError, Store.empty) :=
  chat_storage_failure_error (str ("hello")) none
    (RemoteOutcome.ok (some (str ("Hi there")))) (str ("u")) (str ("t")) 0
    Store.empty (by decide) (by decide)

/-- Claim C2: any message containing a crisis keyword case-insensitively
is classified as crisis, and (when the logging write succeeds) the
handler returns the fixed crisis reply with `is_crisis = True`, does not
depend on the remote completion outcome, and the crisis reply contains
the three emergency contacts verbatim. -/
theorem crisis_detection_and_routing (message : Str) (convP : Option Str)
    (remote : RemoteOutcome) (u ts : Str) (now : Nat) (s : Store) (k : Str)
    (hk : k ∈ crisis_keywords) (hc : k <:+: lowerStr message) :
    classify message = true ∧
    (chat_with_ai message convP remote true u ts now s).1
      = .ok ⟨crisis_response, convP.getD u, some true⟩ ∧
    (∀ remote2, chat_with_ai message convP remote true u ts now s
        = chat_with_ai message convP remote2 true u ts now s) ∧
    containsStr (str ("Crisis Text Line")) crisis_response = true ∧
    containsStr (str ("Text HOME to 741741")) crisis_response = true ∧
    containsStr (str ("National Suicide Prevention Lifeline")) crisis_response = true ∧
    containsStr (str ("Call or text 988")) crisis_response = true ∧
    containsStr (str ("Call 911")) crisis_response = true := by
  have hcls := classify_strip_true message k hk hc
  have hne := strip_ne_nil_of_keyword message k hk hc
  refine ⟨(classify_eq_true_iff message).mpr ⟨k, hk, hc⟩, ?_, ?_,
    by decide, by decide, by decide, by decide, by decide⟩
  · simp [chat_with_ai, hne, hcls]
  · intro remote2
    simp [chat_with_ai, hne, hcls]

/-- Claim C2 witness: the theorem applied to a concrete crisis message,
with an unavailable remote service. -/
theorem crisis_detection_witness :
    (chat_with_ai (str ("thinking about Suicide again")) none RemoteOutcome.err
        true (str ("u")) (str ("t")) 0 Store.empty).1
      = ChatResult.ok ⟨crisis_response, str ("u"), some true⟩ :=
  (crisis_detection_and_routing (str ("thinking about Suicide again")) none
    RemoteOutcome.err (str ("u")) (str ("t")) 0 Store.empty (str ("suicide"))
    (by decide) (by decide)).2.1

/-- Claim C3 (amended): for a non-crisis message, when the remote
completion fails the reply is the Fallback Responder's output and is
never empty; the success payload carries no `is_crisis` field at all
(rather than an explicit false). -/
theorem fallback_on_remote_failure (message : Str) (convP : Option Str)
    (u ts : Str) (now : Nat) (s : Store)
    (hne : strip message ≠ []) (hnc : classify message = false) :
    (chat_with_ai message convP .err true u ts now s).1
      = .ok ⟨fallback (strip message), convP.getD u, none⟩ ∧
    fallback (strip message) ≠ [] := by
  have hcs := classify_strip_false message hnc
  exact ⟨by simp [chat_with_ai, hne, hcs], fallback_ne_nil _⟩

/-- Claim C3 counterexample: at the concrete non-crisis message "hello"
with the remote unavailable, the response's crisis marker is absent
(`none`), not the explicit `false` the claim asserts. -/
theorem fallback_is_crisis_absent_cex :
    (chat_with_ai (str ("hello")) none RemoteOutcome.err true (str ("u"))
        (str ("t")) 0 Store.empty).1
      = ChatResult.ok ⟨fallback (strip (str ("hello"))), str ("u"), none⟩ ∧
    ChatResult.ok ⟨fallback (strip (str ("hello"))), str ("u"), none⟩
      ≠ ChatResult.ok ⟨fallback (strip (str ("hello"))), str ("u"), some false⟩ := by
  decide

/-- Claim C3 witness: the amended theorem applied at a concrete input. -/
theorem fallback_on_remote_failure_witness :
    (chat_with_ai (str ("I feel sad")) none RemoteOutcome.err true (str ("u"))
        (str ("t")) 0 Store.empty).1
      = ChatResult.ok ⟨fallback (strip (str ("I feel sad"))), str ("u"), none⟩ ∧
    fallback (strip (str ("I feel sad"))) ≠ [] :=
  fallback_on_remote_failure (str ("I feel sad")) none (str ("u")) (str ("t"))
    0 Store.empty (by decide) (by decide)

/-- Claim C5: a message that is empty after trimming is rejected with the
400 invalid-input error and the store is unchanged — no chat row is
written. -/
theorem empty_message_rejected (message : Str) (convP : Option Str)
    (remote : RemoteOutcome) (storeOk : Bool) (u ts : Str) (now : Nat)
    (s : Store) (he : strip message = []) :
    chat_with_ai message convP remote storeOk u ts now s = (.invalidInput, s) := by
  simp [chat_with_ai, he]

/-- Claim C5 witness: both the empty and the all-blank message are
rejected with the store untouched. -/
theorem empty_message_rejected_witness :
    chat_with_ai (str ("")) none RemoteOutcome.err true (str ("u")) (str ("t"))
        0 Store.empty = (ChatResult.invalidInput, Store.empty) ∧
    chat_with_ai (str ("   ")) none RemoteOutcome.err true (str ("u")) (str ("t"))
        0 Store.empty = (ChatResult.invalidInput, Store.empty) :=
  ⟨empty_message_rejected _ _ _ _ _ _ _ _ (by decide),
   empty_message_rejected _ _ _ _ _ _ _ _ (by decide)⟩

/-- Claim C4: the Fallback Responder is total with a non-empty result,
scans the mood keywords in the fixed order stressed, anxious, sad, happy,
tired with first-match-wins, falls back to the generic supportive reply
when nothing matches, and on a message containing both "stressed" and
"sad" picks the stressed reply. -/
theorem fallback_responder_first_match (t : Str) :
    fallback t ≠ [] ∧
    (containsStr (str ("stressed")) (lowerStr t) = true →
      fallback t = stressed_reply) ∧
    (containsStr (str ("stressed")) (lowerStr t) = false →
      containsStr (str ("anxious")) (lowerStr t) = true →
      fallback t = anxious_reply) ∧
    (containsStr (str ("stressed")) (lowerStr t) = false →
      containsStr (str ("anxious")) (lowerStr t) = false →
      containsStr (str ("sad")) (lowerStr t) = true →
      fallback t = sad_reply) ∧
    (containsStr (str ("stressed")) (lowerStr t) = false →
      containsStr (str ("anxious")) (lowerStr t) = false →
      containsStr (str ("sad")) (lowerStr t) = false →
      containsStr (str ("happy")) (lowerStr t) = true →
      fallback t = happy_reply) ∧
    (containsStr (str ("stressed")) (lowerStr t) = false →
      containsStr (str ("anxious")) (lowerStr t) = false →
      containsStr (str ("sad")) (lowerStr t) = false →
      containsStr (str ("happy")) (lowerStr t) = false →
      containsStr (str ("tired")) (lowerStr t) = true →
      fallback t = tired_reply) ∧
    ((∀ p ∈ fallback_responses, containsStr p.1 (lowerStr t) = false) →
      fallback t = generic_reply) ∧
    fallback (str ("I feel so stressed and sad today")) = stressed_reply := by
  refine ⟨fallback_ne_nil t, ?_, ?_, ?_, ?_, ?_, ?_, by decide⟩
  · intro h1
    simp [fallback, fallback_responses, List.find?, h1]
  · intro h1 h2
    simp [fallback, fallback_responses, List.find?, h1, h2]
  · intro h1 h2 h3
    simp [fallback, fallback_responses, List.find?, h1, h2, h3]
  · intro h1 h2 h3 h4
    simp [fallback, fallback_responses, List.find?, h1, h2, h3, h4]
  · intro h1 h2 h3 h4 h5
    simp [fallback, fallback_responses, List.find?, h1, h2, h3, h4, h5]
  · intro hall
    have hnone : fallback_responses.find?
        (fun p => containsStr p.1 (lowerStr t)) = none := by
      rw [List.find?_eq_none]
      intro x hx
      rw [hall x hx]
      simp
    simp [fallback, hnone]

/-- Claim C4 witness: the first-match clause applied at a concrete
message. -/
theorem fallback_responder_first_match_witness :
    fallback (str ("so Stressed right now")) = stressed_reply :=
  (fallback_responder_first_match (str ("so Stressed right now"))).2.1 (by decide)

/-- Claim C6 (amended): on a successful remote call the reply is the
remote text trimmed of surrounding whitespace, and the fixed substitute
is used exactly when the remote returns empty (or missing) text; a
whitespace-only remote text therefore yields an empty reply. -/
theorem remote_success_reply (message : Str) (convP : Option Str)
    (u ts : Str) (now : Nat) (s : Store) (content : Str)
    (hne : strip message ≠ []) (hnc : classify (strip message) = false) :
    ((chat_with_ai message convP (.ok (some content)) true u ts now s).1
      = .ok ⟨if content = [] then substitute_reply else strip content,
             convP.getD u, none⟩) ∧
    ((chat_with_ai message convP (.ok none) true u ts now s).1
      = .ok ⟨substitute_reply, convP.getD u, none⟩) := by
  constructor <;> simp [chat_with_ai, hne, hnc]

/-- Claim C6 counterexample: a whitespace-only (hence non-empty) remote
text is trimmed to the empty reply instead of being replaced by the
substitute — the successful-remote path CAN yield an empty reply. -/
theorem remote_whitespace_empty_reply_cex :
    (chat_with_ai (str ("hello")) none (RemoteOutcome.ok (some (str (" "))))
        true (str ("u")) (str ("t")) 0 Store.empty).1
      = ChatResult.ok ⟨[], str ("u"), none⟩ ∧
    ([] : Str) ≠ substitute_reply := by
  decide

/-- Claim C6 witness: the amended theorem applied at a concrete input. -/
theorem remote_success_reply_witness :
    ((chat_with_ai (str ("hi there")) none
        (RemoteOutcome.ok (some (str (" Hello! ")))) true (str ("u"))
        (str ("t")) 0 Store.empty).1
      = ChatResult.ok ⟨if str (" Hello! ") = [] then substitute_reply
            else strip (str (" Hello! ")), str ("u"), none⟩) ∧
    ((chat_with_ai (str ("hi there")) none (RemoteOutcome.ok none) true
        (str ("u")) (str ("t")) 0 Store.empty).1
      = ChatResult.ok ⟨substitute_reply, str ("u"), none⟩) :=
  remote_success_reply (str ("hi there")) none (str ("u")) (str ("t")) 0
    Store.empty (str (" Hello! ")) (by decide) (by decide)

/-- Claim C7 (amended): the dashboard average intensity (in exact tenths)
is the 7-day mean rounded to one decimal, except that the default 5 (50
tenths) is returned both when there are no rows in the window AND when
the mean is zero — sqlite NULL and a 0.0 average are both falsy in the
`fetchone()[0] or 5` expression. -/
theorem avg_intensity_characterization (now : Nat) (s : Store) :
    (recent7 now s = [] →
      (get_mood_statistics now s).avg_intensity_tenths = 50) ∧
    (sumIntensity (recent7 now s) = 0 →
      (get_mood_statistics now s).avg_intensity_tenths = 50) ∧
    (recent7 now s ≠ [] → sumIntensity (recent7 now s) ≠ 0 →
      (get_mood_statistics now s).avg_intensity_tenths
        = roundTenthsHalfEven (sumIntensity (recent7 now s))
            ((recent7 now s).length : ℤ)) := by
  refine ⟨?_, ?_, ?_⟩
  · intro h
    simp [get_mood_statistics, h]
  · intro h
    by_cases he : recent7 now s = [] <;> simp [get_mood_statistics, he, h]
  · intro h1 h2
    simp [get_mood_statistics, h1, h2]

/-- Claim C7 counterexample: one mood row with intensity 0 logged within
the 7-day window — the rows are non-empty and the rounded mean is 0, yet
the statistics return the default 5 (50 tenths), so "default exactly when
there are no rows" is false. -/
theorem avg_intensity_zero_default_cex :
    (get_mood_statistics 0
        { Store.empty with
          moods := [⟨1, str ("sad"), str ("s"), 0, [], 0⟩]
          moods_next_id := 2 }).avg_intensity_tenths = 50 ∧
    recent7 0
        { Store.empty with
          moods := [⟨1, str ("sad"), str ("s"), 0, [], 0⟩]
          moods_next_id := 2 } ≠ [] ∧
    roundTenthsHalfEven (sumIntensity (recent7 0
        { Store.empty with
          moods := [⟨1, str ("sad"), str ("s"), 0, [], 0⟩]
          moods_next_id := 2 }))
      ((recent7 0
        { Store.empty with
          moods := [⟨1, str ("sad"), str ("s"), 0, [], 0⟩]
          moods_next_id := 2 }).length : ℤ) = 0 ∧
    (50 : ℤ) ≠ 0 := by
  decide

/-- Claim C7 witness: the amended theorem applied to a store with one
recent row of intensity 7 (mean 7.0, i.e. 70 tenths). -/
theorem avg_intensity_characterization_witness :
    (get_mood_statistics 0
        { Store.empty with
          moods := [⟨1, str ("happy"), str ("h"), 7, [], 0⟩]
          moods_next_id := 2 }).avg_intensity_tenths
      = roundTenthsHalfEven (sumIntensity (recent7 0
          { Store.empty with
            moods := [⟨1, str ("happy"), str ("h"), 7, [], 0⟩]
            moods_next_id := 2 }))
          ((recent7 0
            { Store.empty with
              moods := [⟨1, str ("happy"), str ("h"), 7, [], 0⟩]
              moods_next_id := 2 }).length : ℤ) :=
  (avg_intensity_characterization 0
    { Store.empty with
      moods := [⟨1, str ("happy"), str ("h"), 7, [], 0⟩]
      moods_next_id := 2 }).2.2 (by decide) (by decide)

/-- Claim C8: settings have upsert round-trip semantics — after
`setSetting k v`, `getSetting k d` returns `v` for any default and any
prior store contents, and `getSetting` of a never-written key returns the
supplied default. -/
theorem settings_upsert_roundtrip (k v d k2 d2 : Str) (s : Store)
    (hfresh : ∀ p ∈ s.user_settings, p.1 ≠ k2) :
    get_user_setting k d (update_user_setting k v s) = v ∧
    get_user_setting k2 d2 s = d2 := by
  constructor
  · have hnone : (s.user_settings.filter
        (fun p => decide (p.1 ≠ k))).find? (fun p => decide (p.1 = k)) = none := by
      rw [List.find?_eq_none]
      intro x hx
      have hx2 := List.of_mem_filter hx
      simp only [decide_eq_true_eq] at hx2 ⊢
      exact hx2
    have hsingle : List.find? (fun p => decide (p.1 = k)) [(k, v)] = some (k, v) := by
      simp [List.find?]
    unfold get_user_setting update_user_setting
    rw [List.find?_append, hnone, hsingle]
    rfl
  · have hnone : s.user_settings.find? (fun p => decide (p.1 = k2)) = none := by
      rw [List.find?_eq_none]
      intro x hx
      simp only [decide_eq_true_eq]
      exact hfresh x hx
    simp [get_user_setting, hnone]

/-- Claim C8 witness: the spec's concrete theme example on the empty
store. -/
theorem settings_upsert_roundtrip_witness :
    get_user_setting (str ("theme")) (str ("light"))
        (update_user_setting (str ("theme")) (str ("dark")) Store.empty)
      = str ("dark") ∧
    get_user_setting (str ("unset_key")) (str ("fallback")) Store.empty
      = str ("fallback") :=
  settings_upsert_roundtrip (str ("theme")) (str ("dark")) (str ("light"))
    (str ("unset_key")) (str ("fallback")) Store.empty (by decide)

/-- A successful chat request appends exactly one chat row carrying the
fresh autoincrement id, preserving the id invariant. -/
lemma chat_ok_ids (message : Str) (convP : Option Str) (remote : RemoteOutcome)
    (u ts : Str) (now : Nat) (s : Store) (hwf : storeWF s) :
    ∀ res s2, chat_with_ai message convP remote true u ts now s = (.ok res, s2) →
      storeWF s2 ∧
      s2.chat_conversations.map ChatRow.id
        = s.chat_conversations.map ChatRow.id ++ [s.chat_next_id] ∧
      ∀ r ∈ s.chat_conversations, r.id < s.chat_next_id := by
  intro res s2 heq
  by_cases hne : strip message = []
  · simp [chat_with_ai, hne] at heq
  · by_cases hcl : classify (strip message) = true
    · simp [chat_with_ai, hne, hcl] at heq
      obtain ⟨h1, h2⟩ := heq
      have h3 := log_chat_conversation_wf (strip message) crisis_response
        (convP.getD u) ts now s hwf
      rw [← h2]
      exact ⟨h3.1, h3.2.1, h3.2.2⟩
    · cases remote with
      | ok content =>
        cases content with
        | none =>
          simp [chat_with_ai, hne, hcl] at heq
          obtain ⟨h1, h2⟩ := heq
          have h3 := log_chat_conversation_wf (strip message) substitute_reply
            (convP.getD u) ts now s hwf
          rw [← h2]
          exact ⟨h3.1, h3.2.1, h3.2.2⟩
        | some t =>
          simp [chat_with_ai, hne, hcl] at heq
          obtain ⟨h1, h2⟩ := heq
          have h3 := log_chat_conversation_wf (strip message)
            (if t = [] then substitute_reply else strip t)
            (convP.getD u) ts now s hwf
          rw [← h2]
          exact ⟨h3.1, h3.2.1, h3.2.2⟩
      | err =>
        simp [chat_with_ai, hne, hcl] at heq
        obtain ⟨h1, h2⟩ := heq
        have h3 := log_chat_conversation_wf (strip message)
          (fallback (strip message)) (convP.getD u) ts now s hwf
        rw [← h2]
        exact ⟨h3.1, h3.2.1, h3.2.2⟩

/-- Claim C9: each successful write operation appends exactly one row to
its table, the returned id is the table's autoincrement counter, all
previously present ids are strictly smaller (so ids are strictly
increasing and never reused), and the store id invariant is preserved;
for the chat handler this holds whenever the call returns a successful
result. -/
theorem append_only_strictly_increasing_ids (mt me nts ct tl mat tg st : Str)
    (inten d cyc : Int) (message : Str) (convP : Option Str)
    (remote : RemoteOutcome) (u ts : Str) (now : Nat) (s : Store)
    (hwf : storeWF s) :
    (storeWF (log_mood mt me inten nts now s).2 ∧
      (log_mood mt me inten nts now s).2.moods.map MoodRow.id
        = s.moods.map MoodRow.id ++ [(log_mood mt me inten nts now s).1] ∧
      ∀ r ∈ s.moods, r.id < (log_mood mt me inten nts now s).1) ∧
    (storeWF (save_journal_entry ct tl mat tg now s).2 ∧
      (save_journal_entry ct tl mat tg now s).2.journal_entries.map JournalRow.id
        = s.journal_entries.map JournalRow.id
          ++ [(save_journal_entry ct tl mat tg now s).1] ∧
      ∀ r ∈ s.journal_entries, r.id < (save_journal_entry ct tl mat tg now s).1) ∧
    (storeWF (log_breathing_session d cyc st now s).2 ∧
      (log_breathing_session d cyc st now s).2.breathing_sessions.map BreathingRow.id
        = s.breathing_sessions.map BreathingRow.id
          ++ [(log_breathing_session d cyc st now s).1] ∧
      ∀ r ∈ s.breathing_sessions, r.id < (log_breathing_session d cyc st now s).1) ∧
    (∀ res s2, chat_with_ai message convP remote true u ts now s = (.ok res, s2) →
      storeWF s2 ∧
      s2.chat_conversations.map ChatRow.id
        = s.chat_conversations.map ChatRow.id ++ [s.chat_next_id] ∧
      ∀ r ∈ s.chat_conversations, r.id < s.chat_next_id) := by
  exact ⟨log_mood_wf mt me inten nts now s hwf,
    save_journal_entry_wf ct tl mat tg now s hwf,
    log_breathing_session_wf d cyc st now s hwf,
    chat_ok_ids message convP remote u ts now s hwf⟩

/-- Claim C9 witness: the mood clause of the theorem applied to the
freshly initialized store. -/
theorem append_only_ids_witness :
    storeWF (log_mood (str ("happy")) (str ("h")) 8 (str ("n")) 0 Store.empty).2 ∧
    (log_mood (str ("happy")) (str ("h")) 8 (str ("n")) 0 Store.empty).2.moods.map
        MoodRow.id
      = Store.empty.moods.map MoodRow.id
        ++ [(log_mood (str ("happy")) (str ("h")) 8 (str ("n")) 0 Store.empty).1] ∧
    ∀ r ∈ Store.empty.moods,
      r.id < (log_mood (str ("happy")) (str ("h")) 8 (str ("n")) 0 Store.empty).1 :=
  (append_only_strictly_increasing_ids (str ("happy")) (str ("h")) (str ("n"))
    (str ("c")) (str ("t")) (str ("m")) (str ("g")) (str ("4-7-8")) 8 120 4
    (str ("hello")) none RemoteOutcome.err (str ("u")) (str ("ts")) 0
    Store.empty storeWF_empty).1

/-- Claim C10: when the caller supplies a present-but-empty conversation
id, the handler returns the empty string as the conversation id while the
persisted chat row carries the freshly generated `conv_<timestamp>`
identifier, which is never the empty string — the returned id and the
stored id disagree. -/
theorem empty_conversation_id_mismatch (message : Str) (remote : RemoteOutcome)
    (u ts : Str) (now : Nat) (s : Store) (hne : strip message ≠ []) :
    ChatResult.convId (chat_with_ai message (some []) remote true u ts now s).1
      = some [] ∧
    (chat_with_ai message (some []) remote true u ts now s).2.chat_conversations.map
        (fun r => r.conversation_id)
      = s.chat_conversations.map (fun r => r.conversation_id)
        ++ [str ("conv_") ++ ts] ∧
    str ("conv_") ++ ts ≠ ([] : Str) := by
  refine ⟨?_, ?_, ?_⟩
  · by_cases hcl : classify (strip message) = true <;>
      simp [chat_with_ai, hne, hcl, ChatResult.convId]
  · by_cases hcl : classify (strip message) = true <;>
      simp [chat_with_ai, hne, hcl, log_chat_conversation, List.map_append]
  · intro hcontra
    have hlen := congrArg List.length hcontra
    rw [List.length_append, List.length_nil] at hlen
    have h5 : (str ("conv_")).length = 5 := by decide
    rw [h5] at hlen
    omega

/-- Claim C10 witness: the theorem applied at a concrete non-crisis
message with the remote unavailable. -/
theorem empty_conversation_id_witness :
    ChatResult.convId (chat_with_ai (str ("hello")) (some [])
        RemoteOutcome.err true (str ("u")) (str ("20240101_120000")) 0
        Store.empty).1 = some [] ∧
    (chat_with_ai (str ("hello")) (some []) RemoteOutcome.err true (str ("u"))
        (str ("20240101_120000")) 0 Store.empty).2.chat_conversations.map
        (fun r => r.conversation_id)
      = Store.empty.chat_conversations.map (fun r => r.conversation_id)
        ++ [str ("conv_") ++ str ("20240101_120000")] ∧
    str ("conv_") ++ str ("20240101_120000") ≠ ([] : Str) :=
  empty_conversation_id_mismatch (str ("hello")) RemoteOutcome.err (str ("u"))
    (str ("20240101_120000")) 0 Store.empty (by decide)

end MindMate
